import Mathlib

/-!
Verification of the resource-governed orchestration layer of the Hybrid_Rag
repository: the intent router, the incremental knowledge-index manager, the
memory-guarded inference governor, the usage-frequency shortcut hint, the
knowledge-injection node (all in demo1.py) and the self-healing process
supervisor (watchdog_jarvis.py).  Python string operations are embedded as
executable functions on lists of characters; the stateful index and the
supervisor loop body are embedded as pure state-transformer functions.
-/

namespace HybridRag

/-- Embedding of Python str.lower() (ASCII case folding). -/
def lowerS (s : String) : String := String.mk (s.toList.map Char.toLower)

/-- Drop leading and trailing whitespace from a character list. -/
def stripL (s : List Char) : List Char :=
  ((s.dropWhile Char.isWhitespace).reverse.dropWhile Char.isWhitespace).reverse

/-- Embedding of Python str.strip(). -/
def stripS (s : String) : String := String.mk (stripL s.toList)

/-- Embedding of Python s.startswith(t). -/
def startsWithS (s t : String) : Bool := t.toList.isPrefixOf s.toList

/-- Does pat occur as a contiguous sublist of s? -/
def subList (pat : List Char) : List Char → Bool
  | [] => pat.isEmpty
  | c :: rest => pat.isPrefixOf (c :: rest) || subList pat rest

/-- Embedding of Python membership test: pat in s. -/
def inS (pat s : String) : Bool := subList pat.toList s.toList

/-- Replace every non-overlapping occurrence of pat by rep, scanning left to
right, with explicit fuel for structural recursion.  The replacement text is
not rescanned, matching Python str.replace. -/
def replaceFuel (pat rep : List Char) : Nat → List Char → List Char
  | 0, s => s
  | _ + 1, [] => []
  | n + 1, c :: rest =>
    if !pat.isEmpty && pat.isPrefixOf (c :: rest) then
      rep ++ replaceFuel pat rep n ((c :: rest).drop pat.length)
    else
      c :: replaceFuel pat rep n rest

/-- Embedding of Python s.replace(pat, rep). -/
def replaceS (s pat rep : String) : String :=
  String.mk (replaceFuel pat.toList rep.toList s.toList.length s.toList)

/-- The five intents returned by the router in create_langgraph_workflow. -/
inductive Intent where
  | inject
  | learn
  | act
  | web
  | answer
deriving DecidableEq, Repr

/-- Knowledge-injection trigger prefixes checked first by the router. -/
def injectTriggers : List String := ["jarvis, note that", "jarvis note that"]

/-- Executive-action trigger phrases (demo1.py line 377). -/
def actionTriggers : List String :=
  ["play ", "open ", "send whatsapp", "audit ", "open youtube"]

/-- Embedding of the router closure in create_langgraph_workflow
(demo1.py lines 368-383).  The documents argument models
state.get("documents"): none for an absent key, some for a present list. -/
def router (rawMsg : String) (documents : Option (List String)) : Intent :=
  let msg := stripS (lowerS rawMsg)
  if injectTriggers.any (fun t => startsWithS msg t) then Intent.inject
  else if inS "remember" msg || inS "save this" msg then Intent.learn
  else if actionTriggers.any (fun t => startsWithS msg t || inS t msg) then
    Intent.act
  else if (documents.getD []).isEmpty then Intent.web
  else Intent.answer

/-- The trigger phrases stripped by knowledge_inject_node (demo1.py line 255),
in source order. -/
def injectStripPhrases : List String :=
  ["jarvis, note that", "jarvis note that", "remember this:", "remember this",
   "save this:", "save this"]

/-- Embedding of the stripping loop of knowledge_inject_node: for each phrase,
clean = clean.lower().replace(phrase, "").strip(). -/
def cleanInject (msg : String) : String :=
  injectStripPhrases.foldl (fun c p => stripS (replaceS (lowerS c) p "")) msg

/-- Observable outcome of knowledge_inject_node: the written document body,
whether a background re-index was scheduled, and the returned answer. -/
structure InjectResult where
  docBody : String
  reindexScheduled : Bool
  answer : String
deriving DecidableEq, Repr

/-- The acknowledgement string returned by knowledge_inject_node
(demo1.py line 266); the apostrophe is built explicitly. -/
def injectAck : String :=
  "Understood, Sir. I" ++ String.mk [Char.ofNat 39] ++
  "ve committed that to my long-term memory and am re-indexing the knowledge base now."

/-- Embedding of knowledge_inject_node (demo1.py lines 250-267).  The ts
argument models the formatted timestamp used in the markdown header. -/
def knowledge_inject_node (msg ts : String) : InjectResult :=
  { docBody := "# Knowledge Entry — " ++ ts ++ "\n\n" ++ cleanInject msg ++ "\n"
    reindexScheduled := true
    answer := injectAck }

/-- The shortcut suggestion string of _check_shortcut (demo1.py line 243). -/
def shortcutHint : String :=
  "\n\n[JARVIS]: Sir, I notice you ask this frequently. Shall I create an auto-report shortcut for it?"

/-- Embedding of RAGPipeline._check_shortcut (demo1.py lines 235-246).  The
usage log is modelled as the list of logged query strings; the hint is
returned when at least 3 logged entries match case-insensitively. -/
def check_shortcut (log : List String) (q : String) : String :=
  if 3 ≤ (log.filter (fun e => lowerS e == lowerS q)).length then shortcutHint
  else ""

/-- Embedding of the ask_jarvis endpoint (demo1.py lines 425-443) restricted
to its shortcut/logging behaviour: the hint is computed from the log as it
stands before the request, appended to the pipeline answer, and the query is
then appended to the usage log. -/
def ask_jarvis (log : List String) (q pipelineAnswer : String) :
    String × List String :=
  (pipelineAnswer ++ check_shortcut log q, log ++ [q])

/-- The sequence of shortcut hints produced by submitting the given queries
in order through the ask endpoint, starting from the given usage log. -/
def runAsk : List String → List String → List String
  | _, [] => []
  | log, q :: rest => check_shortcut log q :: runAsk (log ++ [q]) rest

/-- Health-log events written by the pipeline on the paths modelled here. -/
inductive HealthEvent where
  | memGuardIndex (ram : ℚ)
  | memGuardInfer (ram : ℚ)
  | primaryFailed (err : String)
  | fallbackFailed (err : String)
  | fallbackGuardFailed (err : String)
deriving DecidableEq

/-- The mutable index state of RAGPipeline: the in-memory document and chunk
lists, whether a BM25 lexical retriever is present, whether a Chroma vector
store handle is open, and the persisted vector-store chunk count. -/
structure RagState where
  documents : List String
  chunks : List String
  bm25Present : Bool
  storeOpen : Bool
  persistCount : Nat
deriving DecidableEq, Repr

/-- Result of one _build_index call: the new state, the chunks inserted into
the vector store, and the health-log events written. -/
structure BuildResult where
  state : RagState
  addedChunks : List String
  logs : List HealthEvent
deriving DecidableEq

/-- Embedding of RAGPipeline._build_index (demo1.py lines 164-200).  split
models the text splitter; ram the sampled memory utilization percentage;
corpus the documents loaded from the data directory.  Above 40 percent the
memory guard clears the in-memory lists, drops the lexical retriever and only
reopens the persisted store; otherwise the suffix of chunks beyond the stored
count is embedded and the stored count grows to the chunk count. -/
def build_index (split : List String → List String) (ram : ℚ)
    (corpus : List String) (st : RagState) : BuildResult :=
  if 40 < ram then
    { state := { documents := [], chunks := [], bm25Present := false,
                 storeOpen := true, persistCount := st.persistCount }
      addedChunks := []
      logs := [HealthEvent.memGuardIndex ram] }
  else if corpus.isEmpty then
    { state := { documents := [], chunks := [], bm25Present := false,
                 storeOpen := false, persistCount := st.persistCount }
      addedChunks := []
      logs := [] }
  else
    let chunks := split corpus
    let existing := st.persistCount
    { state := { documents := corpus, chunks := chunks, bm25Present := true,
                 storeOpen := true,
                 persistCount :=
                   if existing < chunks.length then chunks.length else existing }
      addedChunks := if existing < chunks.length then chunks.drop existing else []
      logs := [] }

/-- Embedding of the status endpoint counts (demo1.py lines 457-473):
document count, chunk count, and vector count (0 when no store is open). -/
def status (st : RagState) : Nat × Nat × Nat :=
  (st.documents.length, st.chunks.length,
   if st.storeOpen then st.persistCount else 0)

/-- Apology returned when the fallback fails under the memory guard
(demo1.py line 321). -/
def apologyMem : String :=
  "Apologies, Sir. Memory pressure is too high for a response right now. Please free some RAM."

/-- Apology returned when both the primary and the fallback fail
(demo1.py line 335). -/
def apologyBoth : String :=
  "Apologies, Sir. Both primary and fallback cognitive arrays are offline. Please check Ollama."

/-- Observable outcome of response_node: the answer string, which backends
were invoked, and the health-log events written. -/
structure RespondResult where
  answer : String
  primaryInvoked : Bool
  fallbackInvoked : Bool
  logs : List HealthEvent
deriving DecidableEq

/-- Embedding of RAGPipeline.response_node (demo1.py lines 299-339).  The two
backend invocations are modelled by their outcomes: ok content or error
message.  Above 40 percent utilization only the fallback is invoked; at or
below, the primary is tried first and the fallback retried once on failure;
if both fail a fixed apology is returned and both failures are logged. -/
def response_node (ram : ℚ) (primary fallback : Except String String) :
    RespondResult :=
  if 40 < ram then
    match fallback with
    | Except.ok a =>
        { answer := a, primaryInvoked := false, fallbackInvoked := true,
          logs := [HealthEvent.memGuardInfer ram] }
    | Except.error e =>
        { answer := apologyMem, primaryInvoked := false, fallbackInvoked := true,
          logs := [HealthEvent.memGuardInfer ram,
                   HealthEvent.fallbackGuardFailed e] }
  else
    match primary with
    | Except.ok a =>
        { answer := a, primaryInvoked := true, fallbackInvoked := false,
          logs := [] }
    | Except.error e =>
        match fallback with
        | Except.ok a =>
            { answer := a, primaryInvoked := true, fallbackInvoked := true,
              logs := [HealthEvent.primaryFailed e] }
        | Except.error e2 =>
            { answer := apologyBoth, primaryInvoked := true,
              fallbackInvoked := true,
              logs := [HealthEvent.primaryFailed e,
                       HealthEvent.fallbackFailed e2] }

/-- watchdog_jarvis.py line 15. -/
def POLL_INTERVAL : Nat := 30

/-- watchdog_jarvis.py line 16. -/
def MAX_BACKOFF : Nat := 120

/-- Cooldown duration (watchdog_jarvis.py line 105). -/
def COOLDOWN : Nat := 300

/-- The backoff expression of watchdog_jarvis.py line 113. -/
def backoff (n : Nat) : Nat := min (POLL_INTERVAL * 2 ^ (min n 3)) MAX_BACKOFF

/-- Observable outcome of one iteration of the supervisor loop: the sleep
durations in order (including the 2-second stabilisation sleep inside
start_server and the trailing poll-interval sleep), whether start_server ran,
the failure-count value in scope when the backoff was computed (none if no
backoff was computed), and the failure count after the iteration. -/
structure WatchStep where
  sleeps : List Nat
  restarted : Bool
  failAtRestart : Option Nat
  failAfter : Nat
deriving DecidableEq, Repr

/-- Embedding of the body of the while loop of watchdog_jarvis.main
(lines 98-129).  fail is the consecutive-failure count entering the
iteration, alive the result of is_port_alive(8000), procExited whether the
tracked child-process handle reports having exited.  start_server increments
the failure count and sleeps 2 seconds before launching. -/
def watchdogStep (fail : Nat) (alive procExited : Bool) : WatchStep :=
  if alive = false then
    let fail1 := if 3 ≤ fail then 0 else fail
    let cooldownSleeps := if 3 ≤ fail then [COOLDOWN] else []
    { sleeps := cooldownSleeps ++ [2, backoff fail1, POLL_INTERVAL]
      restarted := true
      failAtRestart := some fail1
      failAfter := fail1 + 1 }
  else if procExited then
    { sleeps := [2, 25, POLL_INTERVAL]
      restarted := true
      failAtRestart := none
      failAfter := 1 }
  else
    { sleeps := [POLL_INTERVAL]
      restarted := false
      failAtRestart := none
      failAfter := 0 }

/-! ### Theorems -/

/-- Helper: submitting queries that all match q case-insensitively, starting
from an arbitrary usage log, yields the hint exactly at the submissions where
the matching-entry count of the starting log plus the submission index has
reached 3. -/
theorem runAsk_all_matching (q : String) :
    ∀ (qs log : List String), (∀ e ∈ qs, lowerS e = lowerS q) →
      runAsk log qs = (List.range qs.length).map
        (fun k =>
          if 3 ≤ (log.filter (fun e => lowerS e == lowerS q)).length + k
          then shortcutHint else "") := by
  intro qs
  induction qs with
  | nil => intro log _; simp [runAsk]
  | cons a rest ih =>
    intro log h
    have ha : lowerS a = lowerS q := h a (List.mem_cons_self a rest)
    have hrest : ∀ e ∈ rest, lowerS e = lowerS q :=
      fun e he => h e (List.mem_cons_of_mem a he)
    have hfun : (fun e => lowerS e == lowerS a)
        = (fun e => lowerS e == lowerS q) := by
      funext e; rw [ha]
    have hcount : ((log ++ [a]).filter (fun e => lowerS e == lowerS q)).length
        = (log.filter (fun e => lowerS e == lowerS q)).length + 1 := by
      rw [List.filter_append]
      simp [List.filter, ha]
    have hhead : check_shortcut log a =
        (if 3 ≤ (log.filter (fun e => lowerS e == lowerS q)).length + 0
         then shortcutHint else "") := by
      simp [check_shortcut, hfun]
    rw [runAsk, ih (log ++ [a]) hrest, hcount, hhead, List.length_cons,
      List.range_succ_eq_map, List.map_cons, List.map_map]
    refine congrArg (List.cons _) (List.map_congr_left ?_)
    intro k _
    simp only [Function.comp_apply]
    have hk : (log.filter (fun e => lowerS e == lowerS q)).length + 1 + k
        = (log.filter (fun e => lowerS e == lowerS q)).length + Nat.succ k := by
      omega
    rw [hk]

/-- C1 counterexample: three submissions of the identical query through the
ask endpoint, starting from an empty usage log, produce no shortcut hint on
any of them — in particular none on the 3rd, contradicting the claim that the
suggestion is appended to the 3rd submission. -/
theorem shortcut_hint_absent_on_third_submission :
    runAsk [] ["hi", "hi", "hi"] = ["", "", ""] := by decide

/-- C1 (amended): across any number of submissions of the same query
(compared case-insensitively) starting from an empty usage log, the shortcut
suggestion is produced exactly on the 4th and every later submission and on
no earlier one: the occurrence count is taken from the usage log before the
request is logged, so it first reaches 3 on the 4th submission. -/
theorem shortcut_hint_fourth_onward (qs : List String) (q : String)
    (h : ∀ e ∈ qs, lowerS e = lowerS q) :
    runAsk [] qs
      = (List.range qs.length).map
          (fun k => if 3 ≤ k then shortcutHint else "") := by
  have hg := runAsk_all_matching q qs [] h
  simpa using hg

/-- Witness for C1: five case-insensitively identical submissions get the
hint exactly on the 4th and 5th. -/
theorem shortcut_hint_fourth_onward_witness :
    runAsk [] ["a", "A", "a", "a", "a"]
      = ["", "", "", shortcutHint, shortcutHint] := by
  have h := shortcut_hint_fourth_onward ["a", "A", "a", "a", "a"] "a"
    (by decide)
  rw [h]; decide

/-- C2 counterexample: with the consecutive-failure count at 3 and the port
down, the supervisor sleeps 300 (cooldown), 2, 30 (backoff for the reset
count) and 30 (poll) seconds — the 120-second backoff claimed for count 3
never occurs in that iteration. -/
theorem cooldown_preempts_backoff_at_three :
    watchdogStep 3 false false
      = ⟨[COOLDOWN, 2, 30, POLL_INTERVAL], true, some 0, 1⟩ ∧
    ¬ (120 ∈ (watchdogStep 3 false false).sleeps) := by decide

/-- C2 (amended): the backoff formula min(30 * 2 ^ min(n, 3), 120) yields
30, 60, 120, 120, 120 at counts 0 to 4; for counts 0, 1, 2 observed with the
port down the restart uses exactly that backoff with the observed count; once
the count has reached 3, the supervisor first sleeps 300 seconds and resets
the count to 0 before the restart, so that restart uses the count-0 backoff
of 30 seconds. -/
theorem backoff_schedule_and_cooldown :
    (backoff 0 = 30 ∧ backoff 1 = 60 ∧ backoff 2 = 120 ∧
     backoff 3 = 120 ∧ backoff 4 = 120) ∧
    (∀ (n : Nat) (e : Bool), n < 3 →
      watchdogStep n false e
        = ⟨[2, backoff n, POLL_INTERVAL], true, some n, n + 1⟩) ∧
    (∀ (n : Nat) (e : Bool), 3 ≤ n →
      watchdogStep n false e
        = ⟨[COOLDOWN, 2, backoff 0, POLL_INTERVAL], true, some 0, 1⟩) := by
  refine ⟨by decide, ?_, ?_⟩
  · intro n e h
    have h3 : ¬ 3 ≤ n := by omega
    simp [watchdogStep, h3]
  · intro n e h
    simp [watchdogStep, h]

/-- Witness for C2: concrete iterations at failure counts 1 and 4. -/
theorem backoff_schedule_and_cooldown_witness :
    watchdogStep 1 false false = ⟨[2, 60, 30], true, some 1, 2⟩ ∧
    watchdogStep 4 false true = ⟨[300, 2, 30, 30], true, some 0, 1⟩ := by
  constructor
  · have h := backoff_schedule_and_cooldown.2.1 1 false (by omega)
    rw [h]; decide
  · have h := backoff_schedule_and_cooldown.2.2 4 true (by omega)
    rw [h]; decide

/-- C3: above 40 percent utilization, rebuild adds zero chunks, only reopens
the persisted store and logs a guard event, while generate invokes only the
fallback and logs a guard event; at or below 40 percent, rebuild embeds
exactly the suffix of chunks beyond the stored count and generate invokes the
primary first. -/
theorem memory_guard_rebuild_and_generate
    (split : List String → List String) (ram : ℚ) (corpus : List String)
    (st : RagState) (p f : Except String String) :
    (40 < ram →
      (build_index split ram corpus st).addedChunks = [] ∧
      (build_index split ram corpus st).state.storeOpen = true ∧
      HealthEvent.memGuardIndex ram ∈ (build_index split ram corpus st).logs ∧
      (response_node ram p f).primaryInvoked = false ∧
      (response_node ram p f).fallbackInvoked = true ∧
      HealthEvent.memGuardInfer ram ∈ (response_node ram p f).logs) ∧
    (ram ≤ 40 →
      (build_index split ram corpus st).addedChunks
        = (build_index split ram corpus st).state.chunks.drop st.persistCount ∧
      (response_node ram p f).primaryInvoked = true) := by
  constructor
  · intro h
    refine ⟨?_, ?_, ?_, ?_, ?_, ?_⟩ <;>
      cases f <;> simp [build_index, response_node, h]
  · intro h
    have hg : ¬ 40 < ram := not_lt.mpr h
    constructor
    · by_cases hc : corpus.isEmpty
      · simp [build_index, hg, hc]
      · by_cases hl : st.persistCount < (split corpus).length
        · simp [build_index, hg, hc, hl]
        · have hle : (split corpus).length ≤ st.persistCount :=
            Nat.le_of_not_lt hl
          simp [build_index, hg, hc, hl, List.drop_eq_nil_of_le hle]
    · cases p <;> cases f <;> simp [response_node, hg]

/-- Witness for C3: concrete guarded (45 percent) and unguarded (35 percent)
rebuild and generate runs. -/
theorem memory_guard_rebuild_and_generate_witness :
    (build_index (fun c => c) 45 ["d"] ⟨[], [], false, false, 0⟩).addedChunks
      = [] ∧
    (response_node 45 (Except.error "boom") (Except.ok "ok")).primaryInvoked
      = false ∧
    (build_index (fun c => c) 35 ["d"] ⟨[], [], false, false, 0⟩).addedChunks
      = (build_index (fun c => c) 35 ["d"]
          ⟨[], [], false, false, 0⟩).state.chunks.drop 0 ∧
    (response_node 35 (Except.ok "fine") (Except.ok "ok")).primaryInvoked
      = true := by
  have h1 := (memory_guard_rebuild_and_generate (fun c => c) 45 ["d"]
    ⟨[], [], false, false, 0⟩ (Except.error "boom") (Except.ok "ok")).1
    (by norm_num)
  have h2 := (memory_guard_rebuild_and_generate (fun c => c) 35 ["d"]
    ⟨[], [], false, false, 0⟩ (Except.ok "fine") (Except.ok "ok")).2
    (by norm_num)
  exact ⟨h1.1, h1.2.2.2.1, h2.1, h2.2⟩

/-- C4 counterexample: with 7 chunks already stored and a corpus that chunks
to a single chunk, an unguarded rebuild completes normally but leaves the
stored-chunk count at 7, which does not equal the freshly computed chunk
count of 1 — refuting the claimed equality after the first call. -/
theorem stored_count_exceeds_chunk_count_after_rebuild :
    (0 : ℚ) ≤ 40 ∧
    (build_index (fun _ => ["a"]) 0 ["d"]
      ⟨[], [], false, false, 7⟩).state.persistCount = 7 ∧
    (build_index (fun _ => ["a"]) 0 ["d"]
      ⟨[], [], false, false, 7⟩).state.chunks.length = 1 ∧
    ¬ ((build_index (fun _ => ["a"]) 0 ["d"]
        ⟨[], [], false, false, 7⟩).state.persistCount
      = (build_index (fun _ => ["a"]) 0 ["d"]
        ⟨[], [], false, false, 7⟩).state.chunks.length) := by
  refine ⟨by norm_num, ?_, ?_, ?_⟩ <;> norm_num [build_index]

/-- C4 (amended): two successive unguarded rebuilds over an unchanged corpus
insert zero chunks on the second call: after the first call the stored-chunk
count is at least (though not necessarily equal to) the freshly computed
chunk count, so the suffix selected for embedding on the second call is
empty. -/
theorem rebuild_idempotent_second_adds_nothing
    (split : List String → List String) (ram1 ram2 : ℚ)
    (corpus : List String) (st : RagState)
    (h1 : ram1 ≤ 40) (h2 : ram2 ≤ 40) :
    (build_index split ram2 corpus
      (build_index split ram1 corpus st).state).addedChunks = [] ∧
    (build_index split ram1 corpus st).state.chunks.length
      ≤ (build_index split ram1 corpus st).state.persistCount := by
  have hg1 : ¬ 40 < ram1 := not_lt.mpr h1
  have hg2 : ¬ 40 < ram2 := not_lt.mpr h2
  by_cases hc : corpus.isEmpty
  · simp [build_index, hg1, hg2, hc]
  · by_cases hl : st.persistCount < (split corpus).length
    · simp [build_index, hg1, hg2, hc, hl]
    · simp [build_index, hg1, hg2, hc, hl]
      omega

/-- Witness for C4: a concrete double rebuild inserts nothing the second
time. -/
theorem rebuild_idempotent_witness :
    (build_index (fun _ => ["a", "b"]) 10 ["d"]
      (build_index (fun _ => ["a", "b"]) 10 ["d"]
        ⟨[], [], false, false, 0⟩).state).addedChunks = [] := by
  have h := rebuild_idempotent_second_adds_nothing (fun _ => ["a", "b"])
    10 10 ["d"] ⟨[], [], false, false, 0⟩ (by norm_num) (by norm_num)
  exact h.1

/-- C5: any message whose lowercased, trimmed form starts with an inject
trigger phrase is classified Inject, regardless of any other cue in the
message, and the router is total: every message yields exactly one of the
five intents. -/
theorem inject_prefix_wins_and_router_total
    (rawMsg : String) (documents : Option (List String))
    (h : injectTriggers.any
      (fun t => startsWithS (stripS (lowerS rawMsg)) t) = true) :
    router rawMsg documents = Intent.inject ∧
    (∀ (m : String) (d : Option (List String)),
      router m d = Intent.inject ∨ router m d = Intent.learn ∨
      router m d = Intent.act ∨ router m d = Intent.web ∨
      router m d = Intent.answer) := by
  constructor
  · simp [router, h]
  · intro m d
    unfold router
    dsimp only
    split_ifs <;> simp

/-- Witness for C5: a message matching both an Inject prefix and a Learn cue
resolves to Inject. -/
theorem inject_prefix_wins_witness :
    router "Jarvis, note that you must remember the door code" (some ["doc"])
      = Intent.inject := by
  have h := inject_prefix_wins_and_router_total
    "Jarvis, note that you must remember the door code" (some ["doc"])
    (by decide)
  exact h.1

/-- C6: generate always terminates in a well-formed answer string — either a
backend answer or one of the two fixed apologies; when the primary fails at
or below the guard threshold the fallback is retried, and when the fallback
also fails the fixed apology is returned with both failures logged to the
health log. -/
theorem generate_total_with_fallback_retry
    (ram : ℚ) (p f : Except String String) :
    ((response_node ram p f).answer = apologyBoth ∨
     (response_node ram p f).answer = apologyMem ∨
     (∃ a, (p = Except.ok a ∨ f = Except.ok a) ∧
       (response_node ram p f).answer = a)) ∧
    (∀ e, ram ≤ 40 → p = Except.error e →
      (response_node ram p f).fallbackInvoked = true) ∧
    (∀ e e2, ram ≤ 40 → p = Except.error e → f = Except.error e2 →
      (response_node ram p f).answer = apologyBoth ∧
      HealthEvent.primaryFailed e ∈ (response_node ram p f).logs ∧
      HealthEvent.fallbackFailed e2 ∈ (response_node ram p f).logs) := by
  refine ⟨?_, ?_, ?_⟩
  · by_cases hg : 40 < ram
    · cases f with
      | ok a =>
          exact Or.inr (Or.inr ⟨a, Or.inr rfl, by simp [response_node, hg]⟩)
      | error e => exact Or.inr (Or.inl (by simp [response_node, hg]))
    · cases p with
      | ok a =>
          exact Or.inr (Or.inr ⟨a, Or.inl rfl, by simp [response_node, hg]⟩)
      | error e =>
          cases f with
          | ok a =>
              exact Or.inr (Or.inr ⟨a, Or.inr rfl,
                by simp [response_node, hg]⟩)
          | error e2 => exact Or.inl (by simp [response_node, hg])
  · intro e hle hp
    have hg : ¬ 40 < ram := not_lt.mpr hle
    subst hp
    cases f <;> simp [response_node, hg]
  · intro e e2 hle hp hf
    have hg : ¬ 40 < ram := not_lt.mpr hle
    subst hp; subst hf
    refine ⟨?_, ?_, ?_⟩ <;> simp [response_node, hg]

/-- Witness for C6: with both backends failing the apology is returned, and
with only the primary failing the fallback is invoked. -/
theorem generate_total_witness :
    (response_node 30 (Except.error "p down") (Except.error "f down")).answer
      = apologyBoth ∧
    (response_node 30 (Except.error "p down")
      (Except.ok "hello")).fallbackInvoked = true := by
  have h1 := (generate_total_with_fallback_retry 30 (Except.error "p down")
    (Except.error "f down")).2.2 "p down" "f down" (by norm_num) rfl rfl
  have h2 := (generate_total_with_fallback_retry 30 (Except.error "p down")
    (Except.ok "hello")).2.1 "p down" (by norm_num) rfl
  exact ⟨h1.1, h2⟩

/-- C7 counterexample: the stripping loop lowercases the whole message, so
processing the example message yields the body text
"the client meets fridays"; the document body does not contain the text
"the client meets Fridays" with its original capital F, refuting the claim
as stated. -/
theorem inject_note_lowercases_fridays :
    cleanInject "Jarvis, note that the client meets Fridays"
      = "the client meets fridays" ∧
    inS "the client meets Fridays"
      ((knowledge_inject_node "Jarvis, note that the client meets Fridays"
        "2026-10-12 00:00:00").docBody) = false := by
  constructor <;> decide

/-- C7 (amended): processing the example message creates a knowledge
Document whose body contains the lowercased remainder
"the client meets fridays" with the trigger phrase stripped, schedules a
rebuild, and returns an answer acknowledging that the fact was committed to
memory. -/
theorem inject_note_creates_lowercased_document :
    (knowledge_inject_node "Jarvis, note that the client meets Fridays"
      "2026-10-12 00:00:00").reindexScheduled = true ∧
    inS "the client meets fridays"
      ((knowledge_inject_node "Jarvis, note that the client meets Fridays"
        "2026-10-12 00:00:00").docBody) = true ∧
    inS "committed that to my long-term memory"
      ((knowledge_inject_node "Jarvis, note that the client meets Fridays"
        "2026-10-12 00:00:00").answer) = true := by
  refine ⟨rfl, by decide, by decide⟩

/-- C8 counterexample: at failure count 2, a process-exit-while-port-alive
iteration sleeps [2, 25, 30] and leaves the count at 1, while a port-down
iteration sleeps [2, 120, 30] and leaves the count at 3; at count 3 the
port-down iteration additionally performs the 300-second cooldown while the
process-exit iteration does not — so the two conditions are not treated the
same. -/
theorem process_exit_differs_from_port_down :
    (watchdogStep 2 true true).sleeps ≠ (watchdogStep 2 false true).sleeps ∧
    (watchdogStep 2 true true).failAfter
      ≠ (watchdogStep 2 false true).failAfter ∧
    (watchdogStep 3 true true).sleeps ≠ (watchdogStep 3 false true).sleeps := by
  decide

/-- C8 (amended): when the tracked child process reports having exited while
the port polls alive, the supervisor performs the same restart action
(start_server, which increments the failure count), but the count was first
reset to 0 by the successful poll so it ends at 1 regardless of history, the
post-restart sleep is a fixed 25 seconds rather than the exponential backoff,
and no cooldown check is performed in that branch. -/
theorem process_exit_restart_fixed_sleep (n : Nat) :
    watchdogStep n true true = ⟨[2, 25, POLL_INTERVAL], true, none, 1⟩ ∧
    (watchdogStep n true true).restarted
      = (watchdogStep n false true).restarted := by
  constructor <;> simp [watchdogStep]

/-- C9: for a message matching no inject, learn or action cue, the router
returns WebAugment exactly when the retrieved document list is absent or
empty, and Respond when retrieval results exist. -/
theorem no_cue_routes_web_iff_no_documents
    (rawMsg : String) (documents : Option (List String))
    (hinj : injectTriggers.any
      (fun t => startsWithS (stripS (lowerS rawMsg)) t) = false)
    (hlearn : (inS "remember" (stripS (lowerS rawMsg))
        || inS "save this" (stripS (lowerS rawMsg))) = false)
    (hact : actionTriggers.any
      (fun t => startsWithS (stripS (lowerS rawMsg)) t
        || inS t (stripS (lowerS rawMsg))) = false) :
    (router rawMsg documents = Intent.web
      ↔ (documents.getD []).isEmpty = true) ∧
    ((documents.getD []).isEmpty = false
      → router rawMsg documents = Intent.answer) := by
  by_cases hd : (documents.getD []).isEmpty = true
  · have hr : router rawMsg documents = Intent.web := by
      simp [router, hinj, hlearn, hact, hd]
    exact ⟨⟨fun _ => hd, fun _ => hr⟩, fun hfalse => by rw [hd] at hfalse; cases hfalse⟩
  · have hd' : (documents.getD []).isEmpty = false := by
      cases h : (documents.getD []).isEmpty
      · rfl
      · exact absurd h hd
    have hr : router rawMsg documents = Intent.answer := by
      simp [router, hinj, hlearn, hact, hd']
    refine ⟨⟨fun hw => ?_, fun ht => absurd ht hd⟩, fun _ => hr⟩
    rw [hr] at hw
    cases hw

/-- Witness for C9: "tell me about permits" with no documents routes to the
web, and with a retrieved document routes to answer generation. -/
theorem no_cue_routes_web_witness :
    router "tell me about permits" none = Intent.web ∧
    router "tell me about permits" (some ["permit rules"]) = Intent.answer := by
  constructor
  · exact (no_cue_routes_web_iff_no_documents "tell me about permits" none
      (by decide) (by decide) (by decide)).1.mpr (by decide)
  · exact (no_cue_routes_web_iff_no_documents "tell me about permits"
      (some ["permit rules"]) (by decide) (by decide) (by decide)).2 (by decide)

/-- C10: a rebuild under the memory guard adds zero chunks, empties the
in-memory document and chunk lists, drops the lexical retriever, reopens the
store with the persisted count unchanged, so the status query reports 0
documents, 0 chunks and the unchanged vector count; lexical retrieval stays
unavailable across further guarded rebuilds and returns only after an
unguarded rebuild over a non-empty corpus. -/
theorem guarded_rebuild_frame_effects
    (split : List String → List String) (ram : ℚ) (corpus : List String)
    (st : RagState) (h : 40 < ram) :
    (build_index split ram corpus st).addedChunks = [] ∧
    (build_index split ram corpus st).state.documents = [] ∧
    (build_index split ram corpus st).state.chunks = [] ∧
    (build_index split ram corpus st).state.bm25Present = false ∧
    (build_index split ram corpus st).state.storeOpen = true ∧
    (build_index split ram corpus st).state.persistCount = st.persistCount ∧
    status (build_index split ram corpus st).state = (0, 0, st.persistCount) ∧
    (∀ (split2 : List String → List String) (ram2 : ℚ)
        (corpus2 : List String), 40 < ram2 →
      (build_index split2 ram2 corpus2
        (build_index split ram corpus st).state).state.bm25Present = false) ∧
    (∀ (split2 : List String → List String) (ram2 : ℚ)
        (corpus2 : List String), ram2 ≤ 40 → corpus2.isEmpty = false →
      (build_index split2 ram2 corpus2
        (build_index split ram corpus st).state).state.bm25Present = true) := by
  refine ⟨?_, ?_, ?_, ?_, ?_, ?_, ?_, ?_, ?_⟩
  · simp [build_index, h]
  · simp [build_index, h]
  · simp [build_index, h]
  · simp [build_index, h]
  · simp [build_index, h]
  · simp [build_index, h]
  · simp [build_index, status, h]
  · intro split2 ram2 corpus2 h2
    simp [build_index, h, h2]
  · intro split2 ram2 corpus2 h2 hc
    have hg2 : ¬ 40 < ram2 := not_lt.mpr h2
    simp [build_index, h, hg2, hc]

/-- Witness for C10: a concrete guarded rebuild at 45 percent reports 0
documents, 0 chunks and the previous vector count of 5. -/
theorem guarded_rebuild_frame_effects_witness :
    status (build_index (fun c => c) 45 ["doc"]
      ⟨["old"], ["oc"], true, true, 5⟩).state = (0, 0, 5) := by
  exact (guarded_rebuild_frame_effects (fun c => c) 45 ["doc"]
    ⟨["old"], ["oc"], true, true, 5⟩ (by norm_num)).2.2.2.2.2.2.1

end HybridRag
